import Mathlib

/- Verification development for OLE/gp_predicter.py: the per-quantity Gaussian-process
ensemble (class GP_predictor) and the per-output-dimension model (class GP).

Conventions of the embedding:
  * Python floats are modelled as exact numbers: by ℚ where only field operations
    / comparisons occur, and by ℝ where sqrt / exp are involved.
  * Stateful methods become explicit state-passing functions; raised exceptions become
    an explicit Bool / Option outcome.
  * Third-party library calls (gpjax, optax, numpy, jax.random) are embedded by their
    documented semantics at the exact call sites the source uses.
-/

/- ================= GP hyperparameters (GP.__init__, gp_predicter.py lines 272-306) ====== -/

/-- Hyperparameter bag of one GP model (the `defaulthyperparameters` dictionary of
`GP.__init__` merged with caller overrides; only the fields the claims touch). -/
structure GPHyper where
  kernel : String
  learning_rate : ℚ
  num_iters : Nat
  testset_fraction : Option ℚ
  error_tolerance : ℚ
  N_quality_samples : Nat
deriving DecidableEq

/-- The default hyperparameters of `GP.__init__`:
kernel 'RBF', learning_rate 0.02, num_iters 100, testset_fraction None,
error_tolerance 0.1, N_quality_samples 5. -/
def GPHyper.default : GPHyper :=
  { kernel := "RBF", learning_rate := 1/50, num_iters := 100,
    testset_fraction := none, error_tolerance := 1/10, N_quality_samples := 5 }

/- ================= C1: the inv_Kxx cache state machine ================================= -/

/-- The methods of class GP whose interleavings claim C1 quantifies over
(`load_data`, `train`, `predict`; `sample` shares predict's caching code and is
included for completeness). -/
inductive GPOp where
  | loadData
  | train
  | predict
  | sample

/-- Cache-relevant state of one GP model. `dataVersion` counts `load_data` calls
(identifying the current Dataset `self.D`); `posteriorVersion` counts successful
`train` calls (identifying the hyperparameters fitted into `self.opt_posterior`).
`inv_Kxx` stores, instead of the matrix itself, the (dataVersion, posteriorVersion)
pair the stored factorization was computed from. -/
structure CacheState where
  recompute_kernel_matrix : Bool
  dataVersion : Nat
  posteriorVersion : Nat
  inv_Kxx : Option (Nat × Nat)
  hasData : Bool
  hasPosterior : Bool
deriving DecidableEq

/-- `GP.__init__` (lines 298-303): `recompute_kernel_matrix = False`, `inv_Kxx = None`,
`D = None`, `opt_posterior = None`. -/
def CacheState.init : CacheState :=
  { recompute_kernel_matrix := false, dataVersion := 0, posteriorVersion := 0,
    inv_Kxx := none, hasData := false, hasPosterior := false }

/-- The Dataset/hyperparameter versions a factorization built right now would carry. -/
def currentTag (s : CacheState) : Nat × Nat := (s.dataVersion, s.posteriorVersion)

/-- The tag of the factorization `GP.predict` (lines 454-461) would contract with:
if the dirty flag is set it rebuilds `inv_Kxx` from the current `self.D` and
`self.opt_posterior` (requiring both to exist), otherwise it reads the stored
`self.inv_Kxx`.  `none` models a raised exception (missing D / opt_posterior /
stored matrix). -/
def usedTag (s : CacheState) : Option (Nat × Nat) :=
  if s.recompute_kernel_matrix then
    if s.hasPosterior && s.hasData then some (currentTag s) else none
  else
    if s.hasPosterior && s.hasData then s.inv_Kxx else none

/-- One method call on the cache state, translated from the source:
  * `load_data` (lines 322-341): `recompute_kernel_matrix = True`, replaces `self.D`.
  * `train` (lines 343-441): replaces `self.opt_posterior` (needs `self.D`; on the
    exception raised when `D` is `None` the state is unchanged). It does not touch
    `recompute_kernel_matrix` or `inv_Kxx`.
  * `predict` (lines 454-461) and `sample` (lines 483-487): when the dirty flag is set
    and the rebuild succeeds, store the fresh factorization in `self.inv_Kxx`; the
    clearing of the flag is commented out in the source (line 456), so the flag is
    never reset. -/
def stepOp (s : CacheState) : GPOp → CacheState
  | .loadData =>
      { s with recompute_kernel_matrix := true, dataVersion := s.dataVersion + 1,
               hasData := true }
  | .train =>
      if s.hasData then
        { s with posteriorVersion := s.posteriorVersion + 1, hasPosterior := true }
      else s
  | .predict =>
      if s.recompute_kernel_matrix && s.hasPosterior && s.hasData then
        { s with inv_Kxx := some (currentTag s) }
      else s
  | .sample =>
      if s.recompute_kernel_matrix && s.hasPosterior && s.hasData then
        { s with inv_Kxx := some (currentTag s) }
      else s

/-- State reached from a fresh GP model after a sequence of method calls. -/
def runOps (ops : List GPOp) : CacheState := ops.foldl stepOp CacheState.init

/-- Invariant backing C1: while the dirty flag is clear, no factorization is stored. -/
def cacheClean (s : CacheState) : Prop :=
  s.recompute_kernel_matrix = false → s.inv_Kxx = none

/- ================= C4: update_error (GP_predictor.update_error, lines 184-194) ========= -/

/-- One model's step of `GP_predictor.update_error`: with `std` the predictive standard
deviation at the probe point, `if error_tolerance > std**2 / 3.: error_tolerance /= 2.`
(`std**2` written as `std * std`). -/
def updateErrorStep (tol std : ℚ) : ℚ :=
  if std * std / 3 < tol then tol / 2 else tol

/-- A model's error tolerance across a sequence of `update_error` calls, with `stds` the
predictive standard deviations read at the successive probe points. -/
def updateErrorRun (tol : ℚ) (stds : List ℚ) : ℚ :=
  stds.foldl updateErrorStep tol

/- ================= C5: ensemble growth (GP_predictor.train, lines 196-224) ============= -/

/-- Ensemble state relevant to C5: `num_GPs` and the list of GP models, each
represented by the output-dimension index it was created for
(`GP('GP '+quantity_name+' dim '+str(i))`). -/
structure EnsembleState where
  num_GPs : Nat
  GPs : List Nat
deriving DecidableEq

/-- `GP_predictor.initialize` (lines 88-89): `self.GPs = []`, `self.num_GPs = 0`. -/
def EnsembleState.init : EnsembleState := { num_GPs := 0, GPs := [] }

/-- `GP_predictor.train` with training data of compressed output width `width`
(lines 202-208): `self.num_GPs = output_data.shape[1]`; if `self.num_GPs > len(self.GPs)`,
append a fresh GP for each `i in range(len(self.GPs), output_data.shape[1])`. -/
def ensembleTrain (width : Nat) (s : EnsembleState) : EnsembleState :=
  { num_GPs := width,
    GPs := if s.GPs.length < width then
             s.GPs ++ List.range' s.GPs.length (width - s.GPs.length)
           else s.GPs }

/-- A sequence of `train()` calls with the successive compressed output widths. -/
def ensembleTrainRun (widths : List Nat) : EnsembleState :=
  widths.foldl (fun s w => ensembleTrain w s) EnsembleState.init

/- ================= C6: the run_tests / load_data train-test splits ===================== -/

/-- Python `int(q)` for a rational `q`: truncation toward zero, i.e. the truncating
integer division of the numerator by the denominator. -/
def pyIntOfRat (q : ℚ) : Int :=
  q.num.tdiv (q.den : Int)

/-- Python `int((1 - testset_fraction) * n)`, the split point used at
gp_predicter.py lines 246 and 337 (clamped to ℕ; the product is non-negative for
every testset_fraction ≤ 1). -/
def trainCount (n : Nat) (frac : ℚ) : Nat :=
  (pyIntOfRat ((1 - frac) * (n : ℚ))).toNat

/-- `np.split(perm, [k])`: the pair of the first `k` entries and the rest. -/
def npSplitAt (k : Nat) (l : List Nat) : List Nat × List Nat :=
  (l.take k, l.drop k)

/-- Stand-in for `np.random.seed(0); np.random.permutation(n)`: a fixed deterministic
permutation of the indices `0, …, n-1`.  The exact order is numpy-internal; every
statement below that involves it is established for every length-preserving
permutation family (see the C6 theorems), so only its length matters and a concrete
stand-in suffices. -/
def npPermutation (n : Nat) : List Nat := List.range n

/-- The train/test index partition `GP.load_data` derives internally (lines 334-339):
seed 0, permute the `self.D.n` indices of the freshly loaded raw data (`n` rows),
split at `int((1-frac)*n)`. The training part then becomes the model's `self.D`. -/
def loadDataSplit (permF : Nat → List Nat) (n : Nat) (frac : ℚ) : List Nat × List Nat :=
  npSplitAt (trainCount n frac) (permF n)

/-- Number of rows of `GPs[0].D` after `load_data` ran with a configured
testset_fraction: the training part of the internal split. -/
def gpTrainSetSize (n : Nat) (frac : ℚ) : Nat := trainCount n frac

/-- The train/test index partition `GP_predictor.run_tests` derives (line 246):
seed 0, permute `self.GPs[0].D.n` indices — i.e. the rows of the first model's
(already split) training Dataset — and split at `int((1-frac) * GPs[0].D.n)`. -/
def runTestsSplit (permF : Nat → List Nat) (n : Nat) (frac : ℚ) : List Nat × List Nat :=
  npSplitAt (trainCount (gpTrainSetSize n frac) frac) (permF (gpTrainSetSize n frac))

/- ================= C7 / C9: the training kernel and gpx.fit ============================ -/

/-- One kernel hyperparameter leaf: its value and its gpjax trainability flag. -/
structure KernelParam where
  value : ℚ
  trainable : Bool
deriving DecidableEq

/-- The RBF signal kernel's trainable hyperparameters (`gpx.kernels.RBF()`, defaults:
variance 1, lengthscale 1, both trainable). -/
structure RBFKernelState where
  variance : KernelParam
  lengthscale : KernelParam
deriving DecidableEq

/-- The White noise kernel's hyperparameter (`gpx.kernels.White(variance=...)`). -/
structure WhiteKernelState where
  variance : KernelParam
deriving DecidableEq

/-- `gpx.kernels.SumKernel(kernels=[kernelRBF, kernelError])`. -/
structure SumKernelState where
  rbf : RBFKernelState
  white : WhiteKernelState
deriving DecidableEq

/-- `gpx.kernels.RBF()` with its default trainable hyperparameters. -/
def gpxRBFKernel : RBFKernelState :=
  { variance := { value := 1, trainable := true },
    lengthscale := { value := 1, trainable := true } }

/-- `gpx.kernels.White(variance = v)` (variance trainable by default). -/
def gpxWhiteKernel (v : ℚ) : WhiteKernelState :=
  { variance := { value := v, trainable := true } }

/-- `kernelWhite.replace_trainable(variance=False)` (line 355). -/
def WhiteKernelState.replaceTrainableVariance (k : WhiteKernelState) (b : Bool) :
    WhiteKernelState :=
  { variance := { value := k.variance.value, trainable := b } }

/-- The kernel `GP.train` builds for the 'RBF' family (lines 348-356): the sum of a
fresh RBF kernel and a White kernel whose variance is pinned to the model's current
`error_tolerance` and marked non-trainable. -/
def buildTrainKernel (tol : ℚ) : SumKernelState :=
  { rbf := gpxRBFKernel,
    white := (gpxWhiteKernel tol).replaceTrainableVariance false }

/-- One optimizer write to a hyperparameter leaf: gpjax's `fit` applies optax updates
only to leaves whose trainability flag is set, leaving non-trainable leaves untouched.
`f` is the (arbitrary) new-value map the optimizer would apply at this step. -/
def optaxUpdate (f : ℚ → ℚ) (p : KernelParam) : KernelParam :=
  if p.trainable then { value := f p.value, trainable := p.trainable } else p

/-- One optimization iteration of `gpx.fit` on the sum kernel's hyperparameter leaves. -/
def gpxFitStep (f : ℚ → ℚ) (k : SumKernelState) : SumKernelState :=
  { rbf := { variance := optaxUpdate f k.rbf.variance,
             lengthscale := optaxUpdate f k.rbf.lengthscale },
    white := { variance := optaxUpdate f k.white.variance } }

/-- `gpx.fit(..., num_iters=...)` (lines 384-392): the optimization loop, as the fold of
an arbitrary sequence of per-iteration updates over the initial kernel state. -/
def gpxFit (steps : List (ℚ → ℚ)) (k : SumKernelState) : SumKernelState :=
  steps.foldl (fun k f => gpxFitStep f k) k

/- ================= C9: GP.train's error behaviour ===================================== -/

/-- The state of one GP model that `GP.train` can read or write: its hyperparameters,
its Dataset (`none` when `self.D is None`, otherwise the number of rows), and the
fitted posterior (the optimized kernel state). -/
structure GPModelState where
  hyper : GPHyper
  D : Option Nat
  opt_posterior : Option SumKernelState
deriving DecidableEq

/-- `GP.train` (lines 343-398), run with an arbitrary sequence of optimizer updates.
Returns the state after the call together with `true` iff the call raised the
`ValueError('Kernel not implemented')` of line 359. The `ValueError` is raised in the
kernel-selection branch, before `del self.opt_posterior` (line 379), so on that error
the state is returned unchanged. When the kernel is 'RBF' but `self.D is None`, the
call dies at `self.D.n` with an AttributeError — not a ValueError — likewise before
any write to `opt_posterior`. -/
def GP.trainRun (s : GPModelState) (steps : List (ℚ → ℚ)) : GPModelState × Bool :=
  if s.hyper.kernel = "RBF" then
    match s.D with
    | some _ =>
        let fitted := gpxFit steps (buildTrainKernel s.hyper.error_tolerance)
        ({ s with opt_posterior := some fitted }, false)
    | none => (s, false)
  else
    (s, true)

/-- A concrete model state with an unsupported kernel family, for the C9 witness. -/
def c9Sample : GPModelState :=
  { hyper := { GPHyper.default with kernel := "Matern52" }, D := some 4,
    opt_posterior := none }

/- ================= C8: the learning-rate schedule (line 377) =========================== -/

/-- The learning-rate schedule `GP.train` hands to `ox.adam`:
`lr = lambda t: self.hyperparameters['learning_rate'] * 10.` (line 377; the
exponential-decay schedule of line 376 is commented out, so the schedule is the
constant function of the step index). -/
def lrSchedule (hp : GPHyper) (_t : Nat) : ℚ :=
  hp.learning_rate * 10

/- ================= C2 / C10: GP.sample (lines 479-500) ================================ -/

/-- One returned entry of `GP.sample`: with `mean` the fast-path mean `ac`, `std` the
predictive standard deviation `predictive_std[0]`, and `z` one standard-normal draw of
`random.normal`, line 500 returns `z * jnp.sqrt(predictive_std[0]) + ac`. -/
noncomputable def GP.sampleDraw (mean std z : ℝ) : ℝ :=
  z * Real.sqrt std + mean

/-- The draw the specification describes: a standard-normal draw scaled by the
predictive standard deviation itself, added to the fast-path mean, so that the sample
has standard deviation `std` about `mean`. -/
def specSampleDraw (mean std z : ℝ) : ℝ :=
  z * std + mean

/-- The vector of samples `GP.sample` returns: shape `(N, 1)` with
`N = self.hyperparameters['N_quality_samples']` (line 481); the method takes no sample
count argument, so the `N` of `GP_predictor.sample_prediction` never reaches it. -/
noncomputable def GP.sampleValues (hp : GPHyper) (mean std : ℝ) (zs : Nat → ℝ) : List ℝ :=
  (List.range hp.N_quality_samples).map fun t => GP.sampleDraw mean std (zs t)

/-- jax semantics of `output_data_compressed.at[:,[i]].set(u)` on an `(N, num_GPs)`
array (line 147): the update `u` of shape `(updLen, 1)` is broadcast to the indexed
column of shape `(colLen, 1)`; the assignment is well-shaped iff `updLen = colLen` or
`updLen = 1`. -/
def jaxColumnAssignOk (colLen updLen : Nat) : Bool :=
  updLen == colLen || updLen == 1

/-- Shape-consistency of `GP_predictor.sample_prediction` (lines 138-154): it allocates
`jnp.zeros((N, self.num_GPs))` and writes each model's `GP.sample` result — a column of
that model's `N_quality_samples` draws — into column `i`. -/
def samplePredictionShapeOk (N : Nat) (models : List GPHyper) : Bool :=
  models.all fun hp => jaxColumnAssignOk N hp.N_quality_samples

/-- A model whose `N_quality_samples` is 1, for the C10 counterexample. -/
def c10Hyper : GPHyper :=
  { GPHyper.default with N_quality_samples := 1 }

/- ================= C3: predict_gradient and predict_gradients ========================= -/

/-- The gpjax RBF kernel value
`variance * exp(-‖x - y‖² / (2 * lengthscale²))` between two input vectors. -/
noncomputable def rbfKernelFn (variance lengthscale : ℝ) {d : Nat} (x y : Fin d → ℝ) : ℝ :=
  variance * Real.exp ((-(∑ i, (x i - y i) ^ 2)) / (2 * lengthscale ^ 2))

/-- A trained single-output GP model as `GP.predict` sees it: the fitted RBF
hyperparameters, the `n` training inputs `X` (rows of `self.D.X`), the cached
factorization `inv_Kxx`, and the training targets `y`. -/
structure TrainedGP (n d : Nat) where
  variance : ℝ
  lengthscale : ℝ
  X : Fin n → Fin d → ℝ
  inv_Kxx : Fin n → Fin n → ℝ
  y : Fin n → ℝ

/-- The contraction of the factorization with the training targets. -/
noncomputable def TrainedGP.weights {n d : Nat} (gp : TrainedGP n d) (m : Fin n) : ℝ :=
  ∑ j, gp.inv_Kxx m j * gp.y j

/-- Modelled from the spec: `calculate_mean_single_from_inv_Kxx` /
`predict_mean_single` live in `OLE.interfaces.gpjax_interface`, which is not under
src/ — "the standard GP mean formula (kernel vector between x and training inputs,
contracted with the cached factorization and training targets)" (spec §4.2), with the
smooth RBF signal kernel (the White noise term of the sum kernel vanishes off the
training inputs). This is the mean `GP.predict` returns. -/
noncomputable def TrainedGP.predictMean {n d : Nat} (gp : TrainedGP n d)
    (x : Fin d → ℝ) : ℝ :=
  ∑ m, rbfKernelFn gp.variance gp.lengthscale x (gp.X m) * gp.weights m

/-- Modelled from the spec: `GP.predict_gradient` is commented out in src/
(gp_predicter.py lines 502-506) while its caller `GP_predictor.predict_gradients` is
live — "returns the gradient of the posterior mean with respect to each component of
x, computed by differentiating the same mean formula used in predict" (spec §4.2).
This is the closed form `jax.grad` produces for `TrainedGP.predictMean`; the theorem
`c3_predict_gradients_differentiate_the_mean` proves it is that formula's derivative. -/
noncomputable def TrainedGP.predictGradient {n d : Nat} (gp : TrainedGP n d)
    (x : Fin d → ℝ) (i : Fin d) : ℝ :=
  ∑ m, rbfKernelFn gp.variance gp.lengthscale x (gp.X m)
        * (-((x i - gp.X m i) / gp.lengthscale ^ 2)) * gp.weights m

/-- `GP_predictor.predict_gradients` (lines 157-182): normalize the parameters, collect
each model's `predict_gradient` into the compressed-gradient matrix, decompress each
input-coordinate column, divide by `input_stds[i]`, multiply row `j` by
`output_stds[j]`, and return the transpose (input coordinate first, output dimension
second).  The data-processor collaborator enters as the abstract functions
`decompress_data`, `input_stds`, `output_stds`, `normalize_input_data`. -/
noncomputable def GP_predictor.predict_gradients {n d k o : Nat}
    (models : Fin k → TrainedGP n d)
    (decompress_data : (Fin k → ℝ) → Fin o → ℝ)
    (input_stds : Fin d → ℝ) (output_stds : Fin o → ℝ)
    (normalize_input_data : (Fin d → ℝ) → Fin d → ℝ)
    (parameters : Fin d → ℝ) : Fin d → Fin o → ℝ :=
  fun i j =>
    decompress_data
        (fun g => (models g).predictGradient (normalize_input_data parameters) i) j
      / input_stds i * output_stds j

/-- A concrete one-point, one-dimensional trained model for the C3 witness. -/
noncomputable def c3WitnessGP : TrainedGP 1 1 :=
  { variance := 1, lengthscale := 1, X := fun _ _ => 0, inv_Kxx := fun _ _ => 1,
    y := fun _ => 1 }

/- ======================= Theorems ====================================================== -/

/-- Step preservation of the C1 cache invariant: no method call can leave a stored
factorization behind a clear dirty flag (the source never clears the flag — line 456
is commented out — and only stores a factorization under a set flag). -/
theorem cacheClean_step (s : CacheState) (op : GPOp) (h : cacheClean s) :
    cacheClean (stepOp s op) := by
  cases op
  case loadData =>
    intro hr
    exact absurd hr (by simp [stepOp])
  case train =>
    simp only [stepOp]
    split
    · exact fun hr => h hr
    · exact h
  case predict =>
    simp only [stepOp]
    split
    · rename_i hc
      intro hr
      rw [show s.recompute_kernel_matrix = false from hr] at hc
      simp at hc
    · exact h
  case sample =>
    simp only [stepOp]
    split
    · rename_i hc
      intro hr
      rw [show s.recompute_kernel_matrix = false from hr] at hc
      simp at hc
    · exact h

/-- The C1 cache invariant holds in every reachable state of a GP model. -/
theorem runOps_cacheClean (ops : List GPOp) : cacheClean (runOps ops) := by
  have haux : ∀ (l : List GPOp) (s : CacheState), cacheClean s → cacheClean (l.foldl stepOp s) := by
    intro l
    induction l with
    | nil => exact fun s h => h
    | cons op rest ih => exact fun s h => ih _ (cacheClean_step s op h)
  exact haux ops CacheState.init (fun _ => rfl)

/-- C1: for every sequence of load_data/train/predict(/sample) calls on a GP model,
a successful `predict` never contracts with a factorization built from a different
Dataset or different fitted hyperparameters than the current ones: whenever the dirty
flag is set — and `load_data` sets it — `predict` rebuilds `inv_Kxx` from the current
Dataset and posterior before using it, and since the flag is never cleared, the stored
matrix can never be read in a state whose Dataset or posterior has moved on. -/
theorem c1_predict_uses_only_current_factorization (ops : List GPOp) (t : Nat × Nat)
    (h : usedTag (runOps ops) = some t) : t = currentTag (runOps ops) := by
  have hclean := runOps_cacheClean ops
  unfold usedTag at h
  by_cases hr : (runOps ops).recompute_kernel_matrix = true
  · rw [if_pos hr] at h
    split at h
    · exact (Option.some_inj.mp h).symm
    · cases h
  · have hr' : (runOps ops).recompute_kernel_matrix = false := by
      simpa using hr
    rw [if_neg (by simp [hr'])] at h
    rw [hclean hr'] at h
    split at h <;> cases h

/-- Witness for C1: after `load_data; train`, a `predict` rebuilds and uses the
factorization tagged with the current Dataset and posterior versions (1, 1). -/
theorem c1_witness : ((1, 1) : Nat × Nat) = currentTag (runOps [GPOp.loadData, GPOp.train]) :=
  c1_predict_uses_only_current_factorization [GPOp.loadData, GPOp.train] (1, 1) rfl

/-- C4: `update_error` halves a model's error tolerance exactly when the tolerance
exceeds one third of the predictive variance `std²` at the probe point, leaves it
unchanged otherwise, and never increases it across any sequence of calls. -/
theorem c4_update_error_ratchet :
    (∀ tol std : ℚ,
        (std * std / 3 < tol → updateErrorStep tol std = tol / 2) ∧
        (¬ std * std / 3 < tol → updateErrorStep tol std = tol) ∧
        updateErrorStep tol std ≤ tol) ∧
    (∀ (tol : ℚ) (stds : List ℚ), updateErrorRun tol stds ≤ tol) := by
  have hstep : ∀ tol std : ℚ, updateErrorStep tol std ≤ tol := by
    intro tol std
    unfold updateErrorStep
    split
    · rename_i hlt
      have h0 : (0 : ℚ) ≤ std * std / 3 := div_nonneg (mul_self_nonneg std) (by norm_num)
      linarith
    · exact le_refl tol
  refine ⟨fun tol std => ⟨fun h => ?_, fun h => ?_, hstep tol std⟩, ?_⟩
  · unfold updateErrorStep
    exact if_pos h
  · unfold updateErrorStep
    exact if_neg h
  · intro tol stds
    induction stds generalizing tol with
    | nil => exact le_refl tol
    | cons s rest ih =>
        calc updateErrorRun tol (s :: rest)
            = updateErrorRun (updateErrorStep tol s) rest := rfl
          _ ≤ updateErrorStep tol s := ih _
          _ ≤ tol := hstep tol s

/-- The concrete threshold fact discharging the C4 witness hypothesis. -/
theorem c4_threshold_at_one : ((1 : ℚ) * 1 / 3) < 1 := by norm_num

/-- Witness for C4: with tolerance 1 and predictive standard deviation 1 the threshold
`1²/3 < 1` fires and the tolerance is halved. -/
theorem c4_witness : updateErrorStep 1 1 = 1 / 2 :=
  (c4_update_error_ratchet.1 1 1).1 c4_threshold_at_one

/-- Length of the GP list after one ensemble `train()` call. -/
theorem ensembleTrain_length (width : Nat) (s : EnsembleState) :
    (ensembleTrain width s).GPs.length = max s.GPs.length width := by
  show (if s.GPs.length < width then
          s.GPs ++ List.range' s.GPs.length (width - s.GPs.length)
        else s.GPs).length = max s.GPs.length width
  split
  · rename_i hlt
    rw [List.length_append, List.length_range']
    omega
  · rename_i hge
    omega

/-- C5 counterexample: training with compressed output width 2 and then width 1 leaves
`len(GPs) = 2` but `num_GPs = 1`, so "after each train() … len(GPs) == num_GPs" fails
when the output width shrinks. -/
theorem c5_counterexample :
    (ensembleTrain 1 (ensembleTrain 2 EnsembleState.init)).GPs.length ≠
      (ensembleTrain 1 (ensembleTrain 2 EnsembleState.init)).num_GPs := by
  decide

/-- C5 (amended): after each `train()` the model count `num_GPs` equals the latest
compressed output width, while `len(GPs)` equals the maximum width seen so far —
models are only appended, never removed, and the previously existing prefix is
retained unchanged.  In particular `len(GPs) == num_GPs` whenever the widths never
decrease (e.g. growth from k1 to k2 > k1 yields exactly k2 models with the first k1
retained); when a width shrinks, `len(GPs)` strictly exceeds `num_GPs`. -/
theorem c5_amended_append_only_growth :
    (∀ (width : Nat) (s : EnsembleState),
        (ensembleTrain width s).num_GPs = width ∧
        (ensembleTrain width s).GPs.length = max s.GPs.length width ∧
        (ensembleTrain width s).GPs.take s.GPs.length = s.GPs) ∧
    (∀ widths : List Nat,
        (ensembleTrainRun widths).GPs.length = widths.foldl max 0) := by
  constructor
  · intro width s
    refine ⟨rfl, ensembleTrain_length width s, ?_⟩
    show (if s.GPs.length < width then
            s.GPs ++ List.range' s.GPs.length (width - s.GPs.length)
          else s.GPs).take s.GPs.length = s.GPs
    split
    · exact List.take_left s.GPs _
    · exact List.take_length s.GPs
  · have haux : ∀ (widths : List Nat) (s : EnsembleState),
        (widths.foldl (fun s w => ensembleTrain w s) s).GPs.length =
          widths.foldl max s.GPs.length := by
      intro widths
      induction widths with
      | nil => intro s; rfl
      | cons w rest ih =>
          intro s
          show (rest.foldl (fun s w => ensembleTrain w s) (ensembleTrain w s)).GPs.length =
            rest.foldl max (max s.GPs.length w)
          rw [ih (ensembleTrain w s), ensembleTrain_length]
    intro widths
    exact haux widths EnsembleState.init

/-- On non-negative rationals, Python `int` truncation agrees with the floor. -/
theorem pyIntOfRat_eq_floor (q : ℚ) (hq : 0 ≤ q) : pyIntOfRat q = ⌊q⌋ := by
  unfold pyIntOfRat
  rw [Rat.floor_def]
  exact Int.tdiv_eq_ediv (Rat.num_nonneg.mpr hq) (Int.natCast_nonneg q.den)

/-- Evaluation of the split point `int((1 - frac) * n)` from rational bounds. -/
theorem trainCount_eq (n k : Nat) (frac : ℚ) (h1 : (k : ℚ) ≤ (1 - frac) * n)
    (h2 : (1 - frac) * (n : ℚ) < (k : ℚ) + 1) : trainCount n frac = k := by
  unfold trainCount
  rw [pyIntOfRat_eq_floor _ (le_trans (by positivity) h1)]
  have hf : ⌊(1 - frac) * (n : ℚ)⌋ = (k : ℤ) := by
    rw [Int.floor_eq_iff]
    exact ⟨by exact_mod_cast h1, by exact_mod_cast h2⟩
  rw [hf]
  exact Int.toNat_natCast k

/-- Split point of the internal load_data split for 10 raw rows, fraction 1/2. -/
theorem trainCount_10_half : trainCount 10 (1/2) = 5 :=
  trainCount_eq 10 5 (1/2) (by norm_num) (by norm_num)

/-- Split point run_tests uses on the first model's 5-row training Dataset
(`int(0.5 * 5) = 2`). -/
theorem trainCount_5_half : trainCount 5 (1/2) = 2 :=
  trainCount_eq 5 2 (1/2) (by norm_num) (by norm_num)

/-- C6 counterexample: with 10 raw samples and testset_fraction 1/2, `load_data`
partitions the 10 raw indices into 5 train / 5 test rows, while `run_tests` permutes
only `GPs[0].D.n = 5` indices and holds out 3 of them — the two partitions differ
(already in size), so `run_tests` does not evaluate exactly the held-out test rows. -/
theorem c6_counterexample :
    runTestsSplit npPermutation 10 (1/2) ≠ loadDataSplit npPermutation 10 (1/2) := by
  intro h
  have h2 := congrArg (fun p : List Nat × List Nat => p.2.length) h
  simp only [runTestsSplit, loadDataSplit, npSplitAt, gpTrainSetSize, npPermutation,
    List.length_drop, List.length_range, trainCount_10_half, trainCount_5_half] at h2
  omega

/-- C6 (amended): `run_tests` re-derives its seeded split over `GPs[0].D.n` — the size
`int((1-frac)*n)` of the first model's training subset — rather than over the raw
sample count `n` that `load_data` permuted.  For every length-preserving permutation
family: whenever the internal split actually holds out at least one row
(`trainCount n frac < n`), the partition `run_tests` derives is different from the
one `load_data` derived; the two coincide exactly in the degenerate case where the
held-out set is empty (`trainCount n frac = n`). -/
theorem c6_amended_run_tests_split_mismatch (permF : Nat → List Nat)
    (hlen : ∀ m, (permF m).length = m) (n : Nat) (frac : ℚ) :
    (trainCount n frac < n →
        runTestsSplit permF n frac ≠ loadDataSplit permF n frac) ∧
    (trainCount n frac = n →
        runTestsSplit permF n frac = loadDataSplit permF n frac) := by
  constructor
  · intro hlt heq
    have hsum := congrArg (fun p : List Nat × List Nat => p.1.length + p.2.length) heq
    simp only [runTestsSplit, loadDataSplit, npSplitAt, gpTrainSetSize,
      List.length_take, List.length_drop, hlen] at hsum
    omega
  · intro heq
    simp only [runTestsSplit, loadDataSplit, gpTrainSetSize, heq]

/-- Concrete instance discharging the C6 witness hypothesis: 20 raw rows at fraction
1/4 give a 15-row training subset, strictly smaller than 20. -/
theorem c6_witness_side : trainCount 20 (1/4) < 20 := by
  rw [trainCount_eq 20 15 (1/4) (by norm_num) (by norm_num)]
  decide

/-- Witness for C6 (amended): at 20 raw rows and fraction 1/4 the two partitions
differ. -/
theorem c6_witness :
    runTestsSplit npPermutation 20 (1/4) ≠ loadDataSplit npPermutation 20 (1/4) :=
  (c6_amended_run_tests_split_mismatch npPermutation
      (fun m => by simp [npPermutation]) 20 (1/4)).1 c6_witness_side

/-- A non-trainable White variance leaf survives the whole optimization loop. -/
theorem gpxFit_white_invariant (steps : List (ℚ → ℚ)) :
    ∀ k : SumKernelState, k.white.variance.trainable = false →
      (gpxFit steps k).white.variance = k.white.variance := by
  induction steps with
  | nil => exact fun k _ => rfl
  | cons f rest ih =>
      intro k hk
      have hstep : (gpxFitStep f k).white.variance = k.white.variance := by
        show optaxUpdate f k.white.variance = k.white.variance
        unfold optaxUpdate
        rw [hk]
        simp
      show (gpxFit rest (gpxFitStep f k)).white.variance = k.white.variance
      rw [ih (gpxFitStep f k) (by rw [hstep, hk]), hstep]

/-- Trainability flags are never changed by the optimizer. -/
theorem gpxFit_rbf_trainable (steps : List (ℚ → ℚ)) :
    ∀ k : SumKernelState,
      (gpxFit steps k).rbf.variance.trainable = k.rbf.variance.trainable := by
  induction steps with
  | nil => exact fun _ => rfl
  | cons f rest ih =>
      intro k
      show (gpxFit rest (gpxFitStep f k)).rbf.variance.trainable = _
      rw [ih (gpxFitStep f k)]
      show (optaxUpdate f k.rbf.variance).trainable = k.rbf.variance.trainable
      unfold optaxUpdate
      split <;> rfl

/-- C7: the kernel `GP.train` builds pins the White noise variance to the
`error_tolerance` in force when `train()` started and marks it non-trainable, so after
the whole optimization loop — whatever updates the optimizer applies — the noise
variance still equals that error tolerance and is still non-trainable, while the RBF
signal hyperparameters remain trainable (only they are optimized). -/
theorem c7_noise_variance_pinned (tol : ℚ) (steps : List (ℚ → ℚ)) :
    (gpxFit steps (buildTrainKernel tol)).white.variance.value = tol ∧
    (gpxFit steps (buildTrainKernel tol)).white.variance.trainable = false ∧
    (gpxFit steps (buildTrainKernel tol)).rbf.variance.trainable = true := by
  have h := gpxFit_white_invariant steps (buildTrainKernel tol) rfl
  refine ⟨?_, ?_, ?_⟩
  · rw [h]
    rfl
  · rw [h]
    rfl
  · rw [gpxFit_rbf_trainable]
    rfl

/-- C8: the learning-rate schedule `lr(t)` that `GP.train` passes to the optimizer is
monotonically non-increasing in the step index t (it is the constant
`learning_rate * 10`, so lr(t2) ≤ lr(t1) for all t1 < t2 within num_iters). -/
theorem c8_lr_schedule_nonincreasing (hp : GPHyper) (t1 t2 : Nat)
    (_h1 : t1 < t2) (_h2 : t2 < hp.num_iters) :
    lrSchedule hp t2 ≤ lrSchedule hp t1 :=
  le_refl _

/-- Witness for C8 at the default hyperparameters and steps 3 < 7 < 100. -/
theorem c8_witness : lrSchedule GPHyper.default 7 ≤ lrSchedule GPHyper.default 3 :=
  c8_lr_schedule_nonincreasing GPHyper.default 3 7 (by decide) (by decide)

/-- C9: `GP.train` raises its configuration error (the
`ValueError('Kernel not implemented')`) exactly when the configured kernel
hyperparameter is not 'RBF', and on that error the model state — in particular
`opt_posterior` — is unchanged, because the raise happens in the kernel-selection
branch before any fitted state is touched. -/
theorem c9_train_valueerror_iff_unsupported_kernel (s : GPModelState)
    (steps : List (ℚ → ℚ)) :
    ((GP.trainRun s steps).2 = true ↔ s.hyper.kernel ≠ "RBF") ∧
    ((GP.trainRun s steps).2 = true → (GP.trainRun s steps).1 = s) := by
  unfold GP.trainRun
  by_cases hk : s.hyper.kernel = "RBF"
  · rw [if_pos hk]
    cases hD : s.D with
    | some m => simp [hk]
    | none => simp [hk]
  · rw [if_neg hk]
    simp [hk]

/-- Witness for C9: a model configured with kernel 'Matern52' raises and is returned
with its state — in particular its posterior — unchanged. -/
theorem c9_witness : (GP.trainRun c9Sample []).1 = c9Sample :=
  (c9_train_valueerror_iff_unsupported_kernel c9Sample []).2 (by decide)

/-- C10 counterexample: a model with `N_quality_samples = 1` makes
`sample_prediction`'s column assignment well-shaped for `N = 2` by jax broadcasting,
so shape-consistency does not require `N` to equal every model's
`N_quality_samples`. -/
theorem c10_counterexample :
    samplePredictionShapeOk 2 [c10Hyper] = true ∧ c10Hyper.N_quality_samples ≠ 2 := by
  decide

/-- C10 (amended): `GP.sample` always returns exactly `N_quality_samples` draws — it
takes no sample-count argument, so the `N` passed to `GP_predictor.sample_prediction`
never reaches it — and `sample_prediction`'s N-by-num_GPs result is shape-consistent
iff every model's `N_quality_samples` equals `N` or equals 1 (a single draw broadcasts
over the N allocated rows). -/
theorem c10_sample_count_and_shape (hp : GPHyper) (mean std : ℝ) (zs : Nat → ℝ)
    (N : Nat) (models : List GPHyper) :
    (GP.sampleValues hp mean std zs).length = hp.N_quality_samples ∧
    (samplePredictionShapeOk N models = true ↔
      ∀ m ∈ models, m.N_quality_samples = N ∨ m.N_quality_samples = 1) := by
  constructor
  · simp [GP.sampleValues]
  · simp [samplePredictionShapeOk, jaxColumnAssignOk, List.all_eq_true]

/-- C2: evaluation of `GP.sample`'s return expression at the failing input
mean 0, predictive standard deviation 4, standard-normal draw 1: the code returns
`1 * sqrt(4) + 0 = 2`, while a draw from the predictive normal distribution (standard
deviation 4, as the spec states) is `1 * 4 + 0 = 4` — the code scales the draw by the
square root of the predictive standard deviation instead of the standard deviation
itself, so the returned samples have variance `std`, not `std²`. -/
theorem c2_sample_scaled_by_sqrt_of_std :
    GP.sampleDraw 0 4 1 = 2 ∧ specSampleDraw 0 4 1 = 4 ∧
      GP.sampleDraw 0 4 1 ≠ specSampleDraw 0 4 1 := by
  have hs : Real.sqrt 4 = 2 := by
    rw [show (4 : ℝ) = 2 ^ 2 by norm_num, Real.sqrt_sq (by norm_num : (0:ℝ) ≤ 2)]
  refine ⟨?_, ?_, ?_⟩
  · simp [GP.sampleDraw, hs]
  · simp [specSampleDraw]
  · simp [GP.sampleDraw, specSampleDraw, hs]

/-- Splitting the squared distance after updating coordinate `i` of the query point. -/
theorem update_sq_sum_eq {d : Nat} (x c : Fin d → ℝ) (i : Fin d) (t : ℝ) :
    (∑ i', (Function.update x i t i' - c i') ^ 2) =
      (t - c i) ^ 2 + ∑ i' ∈ Finset.univ \ {i}, (x i' - c i') ^ 2 := by
  have hpt : ∀ j : Fin d, (Function.update x i t j - c j) ^ 2 =
      Function.update (fun i' => (x i' - c i') ^ 2) i ((t - c i) ^ 2) j := by
    intro j
    rcases eq_or_ne j i with h | h
    · subst h
      simp
    · simp [Function.update_noteq h]
  calc (∑ i', (Function.update x i t i' - c i') ^ 2)
      = ∑ i', Function.update (fun i' => (x i' - c i') ^ 2) i ((t - c i) ^ 2) i' :=
        Finset.sum_congr rfl fun j _ => hpt j
    _ = (t - c i) ^ 2 + ∑ i' ∈ Finset.univ \ {i}, (x i' - c i') ^ 2 :=
        Finset.sum_update_of_mem (Finset.mem_univ i) _ _

/-- Derivative of the RBF kernel value in one coordinate of the query point. -/
theorem hasDerivAt_rbfKernel_update {d : Nat} (v l : ℝ) (hl : l ≠ 0)
    (x c : Fin d → ℝ) (i : Fin d) :
    HasDerivAt (fun t => rbfKernelFn v l (Function.update x i t) c)
      (rbfKernelFn v l x c * (-((x i - c i) / l ^ 2))) (x i) := by
  set C := ∑ i' ∈ Finset.univ \ {i}, (x i' - c i') ^ 2 with hC
  have hfun : (fun t => rbfKernelFn v l (Function.update x i t) c) =
      fun t => v * Real.exp ((-((t - c i) ^ 2 + C)) / (2 * l ^ 2)) := by
    funext t
    unfold rbfKernelFn
    rw [update_sq_sum_eq]
  have hval : rbfKernelFn v l x c =
      v * Real.exp ((-((x i - c i) ^ 2 + C)) / (2 * l ^ 2)) := by
    unfold rbfKernelFn
    have hx := update_sq_sum_eq x c i (x i)
    rw [Function.update_eq_self] at hx
    rw [hx]
  have h2 : HasDerivAt (fun t : ℝ => (t - c i) ^ 2) (2 * (x i - c i)) (x i) := by
    have := ((hasDerivAt_id (x i)).sub_const (c i)).pow 2
    simpa using this
  have h1 : HasDerivAt (fun t : ℝ => (-((t - c i) ^ 2 + C)) / (2 * l ^ 2))
      ((-(2 * (x i - c i))) / (2 * l ^ 2)) (x i) :=
    ((h2.add_const C).neg).div_const (2 * l ^ 2)
  have h3 := (h1.exp).const_mul v
  rw [hfun, hval]
  convert h3 using 1
  field_simp
  ring

/-- The closed-form `predictGradient` is the derivative of the mean formula that
`predict` evaluates, coordinate by coordinate. -/
theorem hasDerivAt_predictMean {n d : Nat} (gp : TrainedGP n d) (x : Fin d → ℝ)
    (i : Fin d) (hl : gp.lengthscale ≠ 0) :
    HasDerivAt (fun t => gp.predictMean (Function.update x i t))
      (gp.predictGradient x i) (x i) := by
  unfold TrainedGP.predictMean TrainedGP.predictGradient
  refine HasDerivAt.sum ?_
  intro m _
  exact (hasDerivAt_rbfKernel_update gp.variance gp.lengthscale hl x (gp.X m) i).mul_const
    (gp.weights m)

/-- C3: for every trained model with non-degenerate lengthscale, the spec-modelled
`predict_gradient` returns exactly the derivative of the same mean formula that
`predict` evaluates (first conjunct), and consequently `GP_predictor.predict_gradients`
returns, at entry (input coordinate i, output dimension j), the decompression of the
per-model derivatives of that mean formula, divided by `input_stds[i]` and multiplied
by `output_stds[j]`. -/
theorem c3_predict_gradients_differentiate_the_mean {n d k o : Nat}
    (models : Fin k → TrainedGP n d)
    (decompress_data : (Fin k → ℝ) → Fin o → ℝ)
    (input_stds : Fin d → ℝ) (output_stds : Fin o → ℝ)
    (normalize_input_data : (Fin d → ℝ) → Fin d → ℝ)
    (parameters : Fin d → ℝ) (i : Fin d) (j : Fin o)
    (hl : ∀ g, (models g).lengthscale ≠ 0) :
    (∀ g, deriv (fun t => (models g).predictMean
          (Function.update (normalize_input_data parameters) i t))
          (normalize_input_data parameters i) =
        (models g).predictGradient (normalize_input_data parameters) i) ∧
    GP_predictor.predict_gradients models decompress_data input_stds output_stds
        normalize_input_data parameters i j =
      decompress_data (fun g =>
          deriv (fun t => (models g).predictMean
            (Function.update (normalize_input_data parameters) i t))
            (normalize_input_data parameters i)) j
        / input_stds i * output_stds j := by
  have hderiv : ∀ g, deriv (fun t => (models g).predictMean
      (Function.update (normalize_input_data parameters) i t))
      (normalize_input_data parameters i) =
      (models g).predictGradient (normalize_input_data parameters) i :=
    fun g => (hasDerivAt_predictMean (models g) (normalize_input_data parameters) i
      (hl g)).deriv
  refine ⟨hderiv, ?_⟩
  unfold GP_predictor.predict_gradients
  rw [funext hderiv]

/-- Witness for C3: the one-point, one-dimensional trained model with lengthscale 1. -/
theorem c3_witness :
    GP_predictor.predict_gradients (fun _ : Fin 1 => c3WitnessGP)
        (fun vals (_ : Fin 1) => vals 0) (fun _ : Fin 1 => (1 : ℝ))
        (fun _ : Fin 1 => (1 : ℝ)) (fun p => p) (fun _ : Fin 1 => (0 : ℝ)) 0 0 =
      deriv (fun t => c3WitnessGP.predictMean
          (Function.update (fun _ : Fin 1 => (0 : ℝ)) 0 t)) 0 / 1 * 1 :=
  (c3_predict_gradients_differentiate_the_mean (fun _ : Fin 1 => c3WitnessGP)
    (fun vals (_ : Fin 1) => vals 0) (fun _ : Fin 1 => (1 : ℝ))
    (fun _ : Fin 1 => (1 : ℝ)) (fun p => p) (fun _ : Fin 1 => (0 : ℝ)) 0 0
    (fun _ => one_ne_zero)).2
